import Mathlib

/-!
Verification development for the agentic travel helper's deferred-workflow
core (`src/server.ts`).  The TypeScript functions are shallowly embedded as
Lean definitions:

* `looksLikeItineraryRequest` — the lexical request classifier
  (`server.ts` lines 109–117), including its four regular-expression tests
  rendered as explicit word-boundary scans over the lower-cased text.
* `itineraryIdFrom` — the rolling 32-bit fingerprint hash (lines 119–123);
  JavaScript's `(h * 31 + code) >>> 0` is `(h * 31 + code) % 2^32` on `Nat`.
* `onPrimaryProduced` — the scheduling tail of `wrappedOnFinish`
  (lines 146–176).
* `executeTask` — the deferred task runner (lines 199–314), with the
  external generator call modelled as an `Option String` oracle argument
  (`none` = the call throws; `some t` = it returns `t`).

Durable-object state (`AgentState`) is explicit; the surrounding effects
(`setState`, `schedule`, `saveMessages`, the generator invocation) are
recorded both in dedicated `World` fields and in an ordered event trace so
that effect ordering (write-before-emit) and attempt counts are provable.
All characters are treated at ASCII fidelity, matching the inputs the
claims quantify over (JavaScript's `\w` is ASCII by definition; `\s`,
`trim` and `toLowerCase` are modelled on their ASCII behaviour).
-/

namespace TravelHelper

/-! ### Character classes (JavaScript regex semantics, ASCII fidelity) -/

/-- JavaScript `\w` = `[A-Za-z0-9_]`. -/
def isWordChar (c : Char) : Bool :=
  c.isAlpha || c.isDigit || c = '_'

/-- JavaScript `\s` (whitespace), modelled on its ASCII members plus NBSP. -/
def isJsWs (c : Char) : Bool :=
  c = ' ' || c = '\t' || c = '\n' || c = '\r' ||
  c = '\x0b' || c = '\x0c' || c.toNat = 160

/-- JavaScript `String.prototype.trim`: strip `\s` from both ends. -/
def jsTrim (l : List Char) : List Char :=
  ((l.dropWhile isJsWs).reverse.dropWhile isJsWs).reverse

/-! ### Word-boundary matching for the classifier's literal patterns -/

/-- Does the literal `w` occur in `s` starting at index `i`? -/
def matchesAt (s : List Char) (i : Nat) (w : List Char) : Bool :=
  (s.drop i).take w.length == w

/-- Is position `i` of `s` occupied by a word character? (Past the end: no.) -/
def wordAtIdx (s : List Char) (i : Nat) : Bool :=
  match s.drop i with
  | [] => false
  | c :: _ => isWordChar c

/-- A `\b` boundary holds before index `i` (whose own character is a word
character in every use below): either `i = 0` or the previous character is
not a word character. -/
def boundaryBefore (s : List Char) (i : Nat) : Bool :=
  i == 0 || !(wordAtIdx s (i - 1))

/-- Match of `\b<w>\b` at index `i`, for a literal `w` made of word
characters. -/
def wordLitAt (s : List Char) (i : Nat) (w : List Char) : Bool :=
  matchesAt s i w && boundaryBefore s i && !(wordAtIdx s (i + w.length))

/-- Existence of a `\b<w>\b` match anywhere in `s` (regex `.test`). -/
def containsWordLit (s : List Char) (w : List Char) : Bool :=
  (List.range (s.length + 1)).any (fun i => wordLitAt s i w)

/-- Match of `\b(\d+)\s*day(s)?\b` at index `i`: a word boundary, one or
more digits, optional whitespace, then `day` or `days` followed by a word
boundary.  The maximal digit and whitespace runs are exact here because a
digit is neither whitespace nor `d`, and a whitespace character is not `d`,
so regex backtracking can never succeed on a shorter run. -/
def dayPatAt (s : List Char) (i : Nat) : Bool :=
  if !(boundaryBefore s i) then false
  else
    let d := ((s.drop i).takeWhile Char.isDigit).length
    if d == 0 then false
    else
      let j := i + d
      let m := j + ((s.drop j).takeWhile isJsWs).length
      (matchesAt s m ['d', 'a', 'y', 's'] && !(wordAtIdx s (m + 4))) ||
      (matchesAt s m ['d', 'a', 'y'] && !(wordAtIdx s (m + 3)))

/-- Existence of a `\b(\d+)\s*day(s)?\b` match anywhere in `s`. -/
def containsDayPat (s : List Char) : Bool :=
  (List.range (s.length + 1)).any (fun i => dayPatAt s i)

/-- The request classifier (`looksLikeItineraryRequest`, `server.ts`
lines 109–117): lower-case the text, then test the four patterns
`\b(\d+)\s*day(s)?\b`, `\bweek(end)?\b`, `\bitinerary\b`, `\btrip\b`.
The optional group `(end)?` unfolds to the disjunction
`weekend`-with-boundaries or `week`-with-boundaries. -/
def looksLikeItineraryRequest (t : String) : Bool :=
  let s := t.data.map Char.toLower
  containsDayPat s ||
  containsWordLit s ['w', 'e', 'e', 'k', 'e', 'n', 'd'] ||
  containsWordLit s ['w', 'e', 'e', 'k'] ||
  containsWordLit s ['i', 't', 'i', 'n', 'e', 'r', 'a', 'r', 'y'] ||
  containsWordLit s ['t', 'r', 'i', 'p']

/-! ### Fingerprint hash (`itineraryIdFrom`, `server.ts` lines 119–123) -/

/-- One step of the rolling hash: JavaScript `(h * 31 + code) >>> 0`.
All intermediate values stay below `2^37`, exactly representable in the
IEEE double, and `>>> 0` is reduction modulo `2^32`. -/
def hashStep (h : Nat) (c : Nat) : Nat :=
  (h * 31 + c) % 4294967296

/-- The 32-bit rolling hash of the text's character codes. -/
def itineraryHash (t : String) : Nat :=
  t.data.foldl (fun h c => hashStep h c.toNat) 0

/-- Lower-case hexadecimal rendering (JavaScript `h.toString(16)`). -/
def hexStr (n : Nat) : String :=
  String.mk (Nat.toDigits 16 n)

/-- The fingerprint (`itineraryIdFrom`): `itn-` followed by the hash in
hexadecimal.  A pure function of the text — no ambient state, randomness
or seed appears anywhere in its definition. -/
def itineraryIdFrom (t : String) : String :=
  "itn-" ++ hexStr (itineraryHash t)

/-! ### JSON-style preference values and the deep merge

The `upsertPreferences` tool implementation lives in `src/tools.ts`, which
is not part of the sources here; only its callers and the system-prompt
references appear in `server.ts`.  Its merge is therefore modelled from
the specification (see `deepMergeVal` / `mergeFields`). -/

/-- Tagged union for the dynamic, untyped preference payloads
(string | number | bool | list | map | null). -/
inductive JVal where
  | str (s : String)
  | num (n : Int)
  | bool (b : Bool)
  | arr (xs : List JVal)
  | obj (fields : List (String × JVal))
  | null

/-- First-match lookup in an association list of JSON fields. -/
def lookupJ : List (String × JVal) → String → Option JVal
  | [], _ => none
  | (k', v) :: rest, k => if k = k' then some v else lookupJ rest k

mutual

/-- Modelled from the spec: the recursive deep merge of an incoming value
into an existing one — "for each key, if both existing and incoming values
are mapping-typed, merge recursively; otherwise incoming value replaces
existing" (§4.3).  The merged object keeps every existing key (in place)
and appends the keys only present in the delta. -/
def deepMergeVal : JVal → JVal → JVal
  | JVal.obj o, JVal.obj d =>
    JVal.obj (mergeFields o d ++ d.filter (fun kv => (lookupJ o kv.1).isNone))
  | _, d => d

/-- Modelled from the spec: rewrite the existing fields `o` under the
incoming fields `d` — each existing key is kept, its value deep-merged
with the incoming value when the key is also in `d` ("merges never delete
keys absent from the incoming delta", §3). -/
def mergeFields : List (String × JVal) → List (String × JVal) → List (String × JVal)
  | [], _ => []
  | (k, v) :: rest, d =>
    (k, match lookupJ d k with
        | none => v
        | some dv => deepMergeVal v dv) :: mergeFields rest d

end

/-- Modelled from the spec: `upsert`'s effect on `profile.preferences`
(§4.3) — the deep merge of the delta object into the stored preference
object: existing keys kept (merged where also incoming), new delta keys
appended. -/
def upsertPreferences (prefs delta : List (String × JVal)) : List (String × JVal) :=
  mergeFields prefs delta ++ delta.filter (fun kv => (lookupJ prefs kv.1).isNone)

/-! ### Durable-object state (`AgentState`, `server.ts` lines 24–29) -/

/-- The `lastItinerary` record: fingerprint id, primary text, creation
time (the ISO timestamp abstracted to a number). -/
structure LastItin where
  id : String
  text : String
  createdAt : Nat
deriving DecidableEq

/-- The `profile` field: dynamic preferences plus free-text notes. -/
structure Profile where
  preferences : List (String × JVal)
  notes : Option String

/-- The durable `AgentState`: `altOfferedFor` is a string-keyed object of
booleans (`false` = alternative scheduled but not yet offered, `true` =
offered), modelled as an association list with JavaScript-object update
semantics (`setKey`). -/
structure AgentState where
  profile : Profile
  itineraryCounter : Option Nat
  altOfferedFor : List (String × Bool)
  lastItinerary : Option LastItin

/-- Lookup in `altOfferedFor` (JavaScript `m?.[k]`: `none` when absent). -/
def getKey : List (String × Bool) → String → Option Bool
  | [], _ => none
  | (k', v) :: rest, k => if k = k' then some v else getKey rest k

/-- JavaScript object spread-update `{...m, [k]: v}`: overwrite the value
if the key is present (keeping its position), else append the new entry. -/
def setKey : List (String × Bool) → String → Bool → List (String × Bool)
  | [], k, v => [(k, v)]
  | (k', v') :: rest, k, v =>
    if k = k' then (k, v) :: rest else (k', v') :: setKey rest k v

/-! ### The world: state plus the recorded external effects -/

/-- A conversation message (the generated `id` field is omitted: no claim
depends on it). -/
structure Message where
  role : String
  text : String
deriving DecidableEq

/-- Payload of a deferred invocation, as `executeTask` sees it after
`JSON.parse`:
* `altPayload id retry` — a well-formed `{"kind":"altItinerary",...}`
  object as produced by `JSON.stringify` in `wrappedOnFinish` and in the
  retry path (`retry` absent on the initial schedule);
* `otherJson label` — a string that parses but is not an `altItinerary`
  payload with an id;
* `malformed label` — a string on which `JSON.parse` throws, leaving the
  payload object empty (`server.ts` lines 201–206). -/
inductive Desc where
  | altPayload (itineraryId : String) (retry : Option Nat)
  | otherJson (label : String)
  | malformed (label : String)
deriving DecidableEq

/-- The raw description string a `Desc` stands for (used verbatim in the
default branch's message).  For `altPayload` it is the `JSON.stringify`
output of the scheduling call. -/
def descText : Desc → String
  | Desc.altPayload id none =>
    "\x7b\"kind\":\"altItinerary\",\"itineraryId\":\"" ++ id ++ "\"\x7d"
  | Desc.altPayload id (some r) =>
    "\x7b\"kind\":\"altItinerary\",\"itineraryId\":\"" ++ id ++ "\",\"retry\":" ++
      toString r ++ "\x7d"
  | Desc.otherJson l => l
  | Desc.malformed l => l

/-- External effects, in program order: a `setState`, a `saveMessages`
append, a `this.schedule(delay, "executeTask", payload)`, or an invocation
of the generator (`generateText`). -/
inductive Event where
  | stateWrite (s : AgentState)
  | emitMsg (m : Message)
  | enqueue (delay : Nat) (d : Desc)
  | genCall

/-- The world: durable state, pending scheduled invocations (in enqueue
order), the conversation message log, and the ordered effect trace. -/
structure World where
  state : AgentState
  queue : List (Nat × Desc)
  messages : List Message
  events : List Event

/-- A fresh conversation: empty state, nothing scheduled, no messages. -/
def initWorld : World :=
  { state := { profile := { preferences := [], notes := none },
               itineraryCounter := none,
               altOfferedFor := [],
               lastItinerary := none },
    queue := [], messages := [], events := [] }

/-! ### `onPrimaryProduced` — the scheduling tail of `wrappedOnFinish`
(`server.ts` lines 146–176) -/

/-- The scheduling path run after the framework persists the primary
answer: bail out if the user text is empty or the classifier rejects it;
compute the fingerprint; bail out if `altOfferedFor[id]` is truthy (only
the value `true` is — a stored `false` does NOT stop the path); otherwise
store `lastItinerary` and the `false` marker in one `setState`, then
enqueue the deferred `altItinerary` invocation with delay 15. -/
def onPrimaryProduced (w : World) (lastUserText finalText : String) (now : Nat) : World :=
  if lastUserText ≠ "" ∧ looksLikeItineraryRequest lastUserText then
    let s := w.state
    let itineraryId := itineraryIdFrom lastUserText
    if getKey s.altOfferedFor itineraryId = some true then w
    else
      let s' : AgentState :=
        { s with
          lastItinerary := some { id := itineraryId, text := finalText, createdAt := now },
          altOfferedFor := setKey s.altOfferedFor itineraryId false }
      let d := Desc.altPayload itineraryId none
      { state := s',
        queue := w.queue ++ [(15, d)],
        messages := w.messages,
        events := w.events ++ [Event.stateWrite s', Event.enqueue 15 d] }
  else w

/-! ### `executeTask` — the deferred task runner (`server.ts` lines 199–314) -/

/-- Normalisation of the generator oracle's outcome, following the `try`
block: a throw (`none`) is failure, and a returned text is trimmed and
treated as failure when the trim is empty (`if (!finalAlt) throw`). -/
def genOutcome (gen : Option String) : Option String :=
  match gen with
  | none => none
  | some t =>
    let tr := jsTrim t.data
    if tr = [] then none else some (String.mk tr)

/-- The text of the posted alternative-itinerary message. -/
def altMsgText (itineraryId finalAlt : String) : String :=
  "**Alternative itinerary (" ++ itineraryId ++ ")**\n\n" ++ finalAlt

/-- The `altItinerary` branch of `executeTask` (lines 208–299):
guard on a truthy `altOfferedFor[id]`; guard on a missing or mismatched
`lastItinerary`; then call the generator.  On success, `setState` the
`true` marker FIRST and append the alternative message SECOND; on failure,
re-enqueue one retry with delay 10 while `retry + 1 <= 1`, else stop with
no state change. -/
def execAlt (w : World) (itineraryId : String) (retry : Option Nat) (gen : Option String) : World :=
  let s := w.state
  if getKey s.altOfferedFor itineraryId = some true then w
  else
    match s.lastItinerary with
    | none => w
    | some base =>
      if base.id = itineraryId then
        match genOutcome gen with
        | some finalAlt =>
          let s' : AgentState :=
            { s with altOfferedFor := setKey s.altOfferedFor itineraryId true }
          let m : Message := { role := "assistant", text := altMsgText itineraryId finalAlt }
          { state := s',
            queue := w.queue,
            messages := w.messages ++ [m],
            events := w.events ++ [Event.genCall, Event.stateWrite s', Event.emitMsg m] }
        | none =>
          let r := retry.getD 0 + 1
          if r ≤ 1 then
            let d := Desc.altPayload itineraryId (some r)
            { w with
              queue := w.queue ++ [(10, d)],
              events := w.events ++ [Event.genCall, Event.enqueue 10 d] }
          else
            { w with events := w.events ++ [Event.genCall] }
      else w

/-- The starter's default branch (lines 302–313): append a user-role
message echoing the raw description. -/
def defaultMsg (d : Desc) : Message :=
  { role := "user", text := "Running scheduled task: " ++ descText d }

/-- `executeTask`: dispatch on the parsed payload.  The `altItinerary`
branch requires `payload.kind === "altItinerary"` AND a truthy
`payload.itineraryId` (the empty string is falsy); every other payload —
other JSON, parse failures, or an alt payload with an empty id — falls to
the starter's default behaviour. -/
def executeTask (w : World) (d : Desc) (gen : Option String) : World :=
  match d with
  | Desc.altPayload itineraryId retry =>
    if itineraryId = "" then
      let m := defaultMsg d
      { w with messages := w.messages ++ [m], events := w.events ++ [Event.emitMsg m] }
    else execAlt w itineraryId retry gen
  | _ =>
    let m := defaultMsg d
    { w with messages := w.messages ++ [m], events := w.events ++ [Event.emitMsg m] }

/-- One externally triggered operation on a conversation: a primary answer
finishing (with the triggering user text), or a scheduler delivery of a
deferred invocation (with the generator oracle's result for it). -/
inductive Op where
  | primary (text finalText : String) (now : Nat)
  | task (d : Desc) (gen : Option String)

/-- The conversation actor's step function (operations are serialized by
the hosting model, §5 of the spec). -/
def step (w : World) : Op → World
  | Op.primary t out now => onPrimaryProduced w t out now
  | Op.task d gen => executeTask w d gen

/-- A run: fold a list of operations over the world. -/
def run (w : World) (ops : List Op) : World :=
  ops.foldl step w

/-- A run of repeated deferred `altItinerary` invocations for one fixed
fingerprint `F`: each list element is the retry field carried by the
payload and the generator oracle's result for that invocation. -/
def runAltF (w : World) (F : String) (invs : List (Option Nat × Option String)) : World :=
  invs.foldl (fun w' p => execAlt w' F p.1 p.2) w

/-- Number of entries of the association list carrying key `k` (JavaScript
objects hold one entry per key; `setKey` preserves that). -/
def countKey (m : List (String × Bool)) (k : String) : Nat :=
  m.countP (fun kv => kv.1 == k)

/-- State well-formedness maintained by every operation: whenever
`lastItinerary` is stored, the `altOfferedFor` marker for its id exists
(the two are always written together in `wrappedOnFinish`). -/
def StateInv (s : AgentState) : Prop :=
  ∀ base, s.lastItinerary = some base → getKey s.altOfferedFor base.id ≠ none

/-! ### Association-list lemmas -/

theorem getKey_setKey_self (m : List (String × Bool)) (k : String) (v : Bool) :
    getKey (setKey m k v) k = some v := by
  induction m with
  | nil => simp [setKey, getKey]
  | cons kv rest ih =>
    obtain ⟨k', v'⟩ := kv
    by_cases h : k = k'
    · simp [setKey, h, getKey]
    · simp [setKey, h, getKey, ih]

theorem getKey_setKey_ne (m : List (String × Bool)) (k q : String) (v : Bool)
    (h : q ≠ k) : getKey (setKey m k v) q = getKey m q := by
  induction m with
  | nil => simp [setKey, getKey, h]
  | cons kv rest ih =>
    obtain ⟨k', v'⟩ := kv
    by_cases hk : k = k'
    · subst hk
      simp [setKey, getKey, h]
    · simp only [setKey, if_neg hk, getKey]
      by_cases hq : q = k'
      · simp [hq]
      · simp [hq, ih]

theorem countKey_setKey_of_none (m : List (String × Bool)) (k : String) (v : Bool)
    (h : getKey m k = none) : countKey (setKey m k v) k = countKey m k + 1 := by
  induction m with
  | nil => simp [setKey, countKey]
  | cons kv rest ih =>
    obtain ⟨k', v'⟩ := kv
    by_cases hk : k = k'
    · simp [getKey, hk] at h
    · simp only [getKey, if_neg (fun hh => hk hh)] at h
      simp only [setKey, if_neg hk, countKey, List.countP_cons] at *
      simp only [ih h]
      omega

theorem countKey_setKey_of_some (m : List (String × Bool)) (k : String) (v b : Bool)
    (h : getKey m k = some b) : countKey (setKey m k v) k = countKey m k := by
  induction m with
  | nil => simp [getKey] at h
  | cons kv rest ih =>
    obtain ⟨k', v'⟩ := kv
    by_cases hk : k = k'
    · simp [setKey, if_pos hk, countKey, List.countP_cons, hk]
    · simp only [getKey, if_neg (fun hh => hk hh)] at h
      simp only [setKey, if_neg hk, countKey, List.countP_cons] at *
      simp only [ih h]

theorem getKey_none_countKey (m : List (String × Bool)) (k : String)
    (h : getKey m k = none) : countKey m k = 0 := by
  induction m with
  | nil => simp [countKey]
  | cons kv rest ih =>
    obtain ⟨k', v'⟩ := kv
    by_cases hk : k = k'
    · simp [getKey, hk] at h
    · simp only [getKey, if_neg (fun hh => hk hh)] at h
      simp only [countKey, List.countP_cons] at *
      simp [ih h, Ne.symm, hk]

/-! ### Path equations for the two operations -/

theorem execAlt_offered (w : World) (F : String) (r : Option Nat) (g : Option String)
    (h : getKey w.state.altOfferedFor F = some true) : execAlt w F r g = w := by
  simp only [execAlt]
  rw [if_pos h]

theorem execAlt_no_base (w : World) (F : String) (r : Option Nat) (g : Option String)
    (h : w.state.lastItinerary = none) : execAlt w F r g = w := by
  simp only [execAlt, h]
  split <;> rfl

theorem execAlt_mismatch (w : World) (F : String) (r : Option Nat) (g : Option String)
    (base : LastItin) (hb : w.state.lastItinerary = some base) (hid : base.id ≠ F) :
    execAlt w F r g = w := by
  simp only [execAlt, hb]
  split <;> rfl

theorem execAlt_success_eq (w : World) (F : String) (r : Option Nat) (g : Option String)
    (base : LastItin) (finalAlt : String)
    (hm : getKey w.state.altOfferedFor F ≠ some true)
    (hb : w.state.lastItinerary = some base) (hid : base.id = F)
    (hg : genOutcome g = some finalAlt) :
    execAlt w F r g =
      { state := { w.state with altOfferedFor := setKey w.state.altOfferedFor F true },
        queue := w.queue,
        messages := w.messages ++ [{ role := "assistant", text := altMsgText F finalAlt }],
        events := w.events ++
          [Event.genCall,
           Event.stateWrite { w.state with altOfferedFor := setKey w.state.altOfferedFor F true },
           Event.emitMsg { role := "assistant", text := altMsgText F finalAlt }] } := by
  simp only [execAlt, hb]
  rw [if_neg hm, if_pos hid, hg]

theorem execAlt_failure_retry (w : World) (F : String) (r : Option Nat) (g : Option String)
    (base : LastItin)
    (hm : getKey w.state.altOfferedFor F ≠ some true)
    (hb : w.state.lastItinerary = some base) (hid : base.id = F)
    (hg : genOutcome g = none) (hr : r.getD 0 + 1 ≤ 1) :
    execAlt w F r g =
      { w with queue := w.queue ++ [(10, Desc.altPayload F (some (r.getD 0 + 1)))],
               events := w.events ++
                 [Event.genCall, Event.enqueue 10 (Desc.altPayload F (some (r.getD 0 + 1)))] } := by
  simp only [execAlt, hb]
  rw [if_neg hm, if_pos hid, hg]
  simp only [if_pos hr]

theorem execAlt_failure_stop (w : World) (F : String) (r : Option Nat) (g : Option String)
    (base : LastItin)
    (hm : getKey w.state.altOfferedFor F ≠ some true)
    (hb : w.state.lastItinerary = some base) (hid : base.id = F)
    (hg : genOutcome g = none) (hr : ¬ r.getD 0 + 1 ≤ 1) :
    execAlt w F r g = { w with events := w.events ++ [Event.genCall] } := by
  simp only [execAlt, hb]
  rw [if_neg hm, if_pos hid, hg]
  simp only [if_neg hr]

theorem onPrimary_rejected (w : World) (t out : String) (now : Nat)
    (h : ¬ (t ≠ "" ∧ looksLikeItineraryRequest t)) :
    onPrimaryProduced w t out now = w := by
  simp only [onPrimaryProduced]
  rw [if_neg h]

theorem onPrimary_offered (w : World) (t out : String) (now : Nat)
    (h : getKey w.state.altOfferedFor (itineraryIdFrom t) = some true) :
    onPrimaryProduced w t out now = w := by
  simp only [onPrimaryProduced]
  split <;> rfl

theorem onPrimary_schedules (w : World) (t out : String) (now : Nat)
    (ht : t ≠ "") (hc : looksLikeItineraryRequest t)
    (h : getKey w.state.altOfferedFor (itineraryIdFrom t) ≠ some true) :
    onPrimaryProduced w t out now =
      { state := { w.state with
          lastItinerary := some { id := itineraryIdFrom t, text := out, createdAt := now },
          altOfferedFor := setKey w.state.altOfferedFor (itineraryIdFrom t) false },
        queue := w.queue ++ [(15, Desc.altPayload (itineraryIdFrom t) none)],
        messages := w.messages,
        events := w.events ++
          [Event.stateWrite { w.state with
             lastItinerary := some { id := itineraryIdFrom t, text := out, createdAt := now },
             altOfferedFor := setKey w.state.altOfferedFor (itineraryIdFrom t) false },
           Event.enqueue 15 (Desc.altPayload (itineraryIdFrom t) none)] } := by
  simp only [onPrimaryProduced]
  rw [if_pos ⟨ht, hc⟩, if_neg h]

theorem executeTask_default (w : World) (d : Desc) (g : Option String)
    (h : ∀ id r, d = Desc.altPayload id r → id = "") :
    executeTask w d g =
      { w with messages := w.messages ++ [defaultMsg d],
               events := w.events ++ [Event.emitMsg (defaultMsg d)] } := by
  cases d with
  | altPayload id r =>
    simp only [executeTask]
    rw [if_pos (h id r rfl)]
  | otherJson l => rfl
  | malformed l => rfl

theorem executeTask_alt (w : World) (id : String) (r : Option Nat) (g : Option String)
    (h : id ≠ "") :
    executeTask w (Desc.altPayload id r) g = execAlt w id r g := by
  simp only [executeTask]
  rw [if_neg h]

/-! ### Marker evolution and the state invariant -/

theorem execAlt_marker_cases (w : World) (F : String) (r : Option Nat) (g : Option String)
    (q : String) :
    getKey (execAlt w F r g).state.altOfferedFor q = getKey w.state.altOfferedFor q ∨
    (q = F ∧ getKey (execAlt w F r g).state.altOfferedFor q = some true) := by
  by_cases hm : getKey w.state.altOfferedFor F = some true
  · rw [execAlt_offered w F r g hm]; left; rfl
  · cases hb : w.state.lastItinerary with
    | none => rw [execAlt_no_base w F r g hb]; left; rfl
    | some base =>
      by_cases hid : base.id = F
      · cases hg : genOutcome g with
        | some finalAlt =>
          rw [execAlt_success_eq w F r g base finalAlt hm hb hid hg]
          by_cases hq : q = F
          · right
            exact ⟨hq, by simp [hq, getKey_setKey_self]⟩
          · left
            simp [getKey_setKey_ne _ _ _ _ hq]
        | none =>
          by_cases hr : r.getD 0 + 1 ≤ 1
          · rw [execAlt_failure_retry w F r g base hm hb hid hg hr]; left; rfl
          · rw [execAlt_failure_stop w F r g base hm hb hid hg hr]; left; rfl
      · rw [execAlt_mismatch w F r g base hb hid]; left; rfl

theorem onPrimary_marker_cases (w : World) (t out : String) (now : Nat) (q : String) :
    getKey (onPrimaryProduced w t out now).state.altOfferedFor q =
      getKey w.state.altOfferedFor q ∨
    (q = itineraryIdFrom t ∧ getKey w.state.altOfferedFor q ≠ some true ∧
      getKey (onPrimaryProduced w t out now).state.altOfferedFor q = some false) := by
  by_cases hc : t ≠ "" ∧ looksLikeItineraryRequest t
  · by_cases ho : getKey w.state.altOfferedFor (itineraryIdFrom t) = some true
    · rw [onPrimary_offered w t out now ho]; left; rfl
    · rw [onPrimary_schedules w t out now hc.1 hc.2 ho]
      by_cases hq : q = itineraryIdFrom t
      · right
        refine ⟨hq, hq ▸ ho, ?_⟩
        simp [hq, getKey_setKey_self]
      · left
        simp [getKey_setKey_ne _ _ _ _ hq]
  · rw [onPrimary_rejected w t out now hc]; left; rfl

theorem executeTask_state_cases (w : World) (d : Desc) (g : Option String) (q : String) :
    getKey (executeTask w d g).state.altOfferedFor q = getKey w.state.altOfferedFor q ∨
    (∃ r gen, d = Desc.altPayload q r ∧ gen = g ∧
      getKey (executeTask w d g).state.altOfferedFor q = some true) := by
  cases d with
  | altPayload id r =>
    by_cases hid : id = ""
    · rw [executeTask_default w _ g (by intro i rr he; cases he; exact hid)]; left; rfl
    · rw [executeTask_alt w id r g hid]
      rcases execAlt_marker_cases w id r g q with h | ⟨hq, h⟩
      · left; exact h
      · right; exact ⟨r, g, by rw [hq], rfl, h⟩
  | otherJson l =>
    rw [executeTask_default w _ g (by intro i rr he; cases he)]; left; rfl
  | malformed l =>
    rw [executeTask_default w _ g (by intro i rr he; cases he)]; left; rfl

theorem step_marker_forward (w : World) (op : Op) (q : String) (b : Bool)
    (h : getKey w.state.altOfferedFor q = some b) :
    ∃ b', getKey (step w op).state.altOfferedFor q = some b' ∧ (b = true → b' = true) := by
  cases op with
  | primary t out now =>
    rcases onPrimary_marker_cases w t out now q with hc | ⟨hq, hne, hc⟩
    · exact ⟨b, by simp only [step]; rw [hc]; exact h, fun hb => hb⟩
    · refine ⟨false, by simp only [step]; rw [hc], fun hb => absurd (hb ▸ h) hne⟩
  | task d g =>
    rcases executeTask_state_cases w d g q with hc | ⟨r, gen, hd, hg, hc⟩
    · exact ⟨b, by simp only [step]; rw [hc]; exact h, fun hb => hb⟩
    · exact ⟨true, by simp only [step]; exact hc, fun _ => rfl⟩

theorem step_marker_true (w : World) (op : Op) (q : String)
    (h : getKey w.state.altOfferedFor q = some true) :
    getKey (step w op).state.altOfferedFor q = some true := by
  rcases step_marker_forward w op q true h with ⟨b', hb', himp⟩
  rw [hb', himp rfl]

theorem runAltF_of_offered (w : World) (F : String)
    (invs : List (Option Nat × Option String))
    (h : getKey w.state.altOfferedFor F = some true) :
    runAltF w F invs = w := by
  induction invs with
  | nil => rfl
  | cons p rest ih =>
    simp only [runAltF, List.foldl]
    rw [execAlt_offered w F p.1 p.2 h]
    exact ih

theorem stateInv_init : StateInv initWorld.state := by
  intro base hb
  cases hb

theorem stateInv_onPrimary (w : World) (t out : String) (now : Nat)
    (h : StateInv w.state) : StateInv (onPrimaryProduced w t out now).state := by
  by_cases hc : t ≠ "" ∧ looksLikeItineraryRequest t
  · by_cases ho : getKey w.state.altOfferedFor (itineraryIdFrom t) = some true
    · rw [onPrimary_offered w t out now ho]; exact h
    · rw [onPrimary_schedules w t out now hc.1 hc.2 ho]
      intro base hb
      cases hb
      simp [getKey_setKey_self]
  · rw [onPrimary_rejected w t out now hc]; exact h

theorem stateInv_execAlt (w : World) (F : String) (r : Option Nat) (g : Option String)
    (h : StateInv w.state) : StateInv (execAlt w F r g).state := by
  by_cases hm : getKey w.state.altOfferedFor F = some true
  · rw [execAlt_offered w F r g hm]; exact h
  · cases hb : w.state.lastItinerary with
    | none => rw [execAlt_no_base w F r g hb]; exact h
    | some base =>
      by_cases hid : base.id = F
      · cases hg : genOutcome g with
        | some finalAlt =>
          rw [execAlt_success_eq w F r g base finalAlt hm hb hid hg]
          intro base' hb'
          have hb2 : w.state.lastItinerary = some base' := hb'
          rw [hb] at hb2
          injection hb2 with hbe
          rw [← hbe, hid, getKey_setKey_self]
          simp
        | none =>
          by_cases hr : r.getD 0 + 1 ≤ 1
          · rw [execAlt_failure_retry w F r g base hm hb hid hg hr]; exact h
          · rw [execAlt_failure_stop w F r g base hm hb hid hg hr]; exact h
      · rw [execAlt_mismatch w F r g base hb hid]; exact h

theorem stateInv_step (w : World) (op : Op)
    (h : StateInv w.state) : StateInv (step w op).state := by
  cases op with
  | primary t out now => exact stateInv_onPrimary w t out now h
  | task d g =>
    cases d with
    | altPayload id r =>
      by_cases hid : id = ""
      · simp only [step]
        rw [executeTask_default w _ g (by intro i rr he; cases he; exact hid)]; exact h
      · simp only [step]
        rw [executeTask_alt w id r g hid]; exact stateInv_execAlt w id r g h
    | otherJson l =>
      simp only [step]
      rw [executeTask_default w _ g (by intro i rr he; cases he)]; exact h
    | malformed l =>
      simp only [step]
      rw [executeTask_default w _ g (by intro i rr he; cases he)]; exact h

/-! ### Lookup behaviour of the preference deep merge -/

theorem lookupJ_append (l1 l2 : List (String × JVal)) (k : String) :
    lookupJ (l1 ++ l2) k =
      match lookupJ l1 k with
      | some v => some v
      | none => lookupJ l2 k := by
  induction l1 with
  | nil => simp [lookupJ]
  | cons kv rest ih =>
    obtain ⟨k', v⟩ := kv
    by_cases h : k = k'
    · simp [lookupJ, h]
    · simp [lookupJ, h, ih]

theorem lookupJ_filterKey (d : List (String × JVal)) (p : String → Bool) (k : String) :
    lookupJ (d.filter (fun kv => p kv.1)) k = if p k then lookupJ d k else none := by
  induction d with
  | nil => simp [lookupJ]
  | cons kv rest ih =>
    obtain ⟨k', v⟩ := kv
    by_cases hk : k = k'
    · subst hk
      by_cases hp : p k
      · simp [List.filter_cons, hp, lookupJ, ih]
      · simp [List.filter_cons, hp, lookupJ, ih]
    · by_cases hp : p k'
      · simp [List.filter_cons, hp, lookupJ, hk, ih]
      · simp [List.filter_cons, hp, lookupJ, hk, ih]

theorem lookupJ_mergeFields (o d : List (String × JVal)) (k : String) :
    lookupJ (mergeFields o d) k =
      (lookupJ o k).map (fun v =>
        match lookupJ d k with
        | none => v
        | some dv => deepMergeVal v dv) := by
  induction o with
  | nil => simp [lookupJ, mergeFields]
  | cons kv rest ih =>
    obtain ⟨k', v⟩ := kv
    by_cases h : k = k'
    · subst h
      simp [mergeFields, lookupJ]
    · simp [mergeFields, lookupJ, h, ih]

theorem lookupJ_upsert (P D : List (String × JVal)) (k : String) :
    lookupJ (upsertPreferences P D) k =
      match lookupJ P k, lookupJ D k with
      | some v, some dv => some (deepMergeVal v dv)
      | some v, none => some v
      | none, res => res := by
  simp only [upsertPreferences]
  rw [lookupJ_append, lookupJ_mergeFields,
    lookupJ_filterKey D (fun q => (lookupJ P q).isNone) k]
  cases hp : lookupJ P k with
  | some v => cases hd : lookupJ D k <;> simp [hp, hd]
  | none => cases hd : lookupJ D k <;> simp [hp, hd]

theorem getKey_some_countKey (m : List (String × Bool)) (k : String) (b : Bool)
    (h : getKey m k = some b) : 1 ≤ countKey m k := by
  induction m with
  | nil => simp [getKey] at h
  | cons kv rest ih =>
    obtain ⟨k', v'⟩ := kv
    by_cases hk : k = k'
    · simp [countKey, List.countP_cons, hk]
    · simp only [getKey, if_neg (fun hh => hk hh)] at h
      simp only [countKey, List.countP_cons] at *
      have := ih h
      omega

/-! ## The claims -/

/-- C1, counterexample.  The claim says a second `onPrimaryProduced` with
the same accepted text is a no-op whatever the stored status, producing
one TaskRecord and ONE enqueued deferred invocation.  On the code, the
guard `if (already) return` only fires when `altOfferedFor[id]` is `true`;
a still-scheduled record stores `false`, which is falsy, so the second
call passes the guard, rewrites the state and enqueues a SECOND deferred
invocation: for the accepted text `"trip"`, two calls on a fresh
conversation leave two queued invocations, not one. -/
theorem C1_counterexample :
    looksLikeItineraryRequest "trip" = true ∧
    (onPrimaryProduced (onPrimaryProduced initWorld "trip" "plan" 0)
        "trip" "plan" 1).queue.length = 2 := by
  constructor
  · decide
  · rfl

/-- C1 (amended): for an accepted text T, `onPrimaryProduced` is a no-op
only when T's record is already completed (`altOfferedFor[fp] = true`).
While the record is merely scheduled (or absent), a repeated call
re-writes the record and enqueues again: two calls leave exactly one
TaskRecord entry for the fingerprint (the object overwrites in place,
final value `false`) but TWO enqueued deferred invocations, each with
delay 15 and the fingerprint as payload. -/
theorem C1_amended_scheduling (w : World) (T out1 out2 : String) (now1 now2 : Nat)
    (hT : T ≠ "") (hc : looksLikeItineraryRequest T = true) :
    (getKey w.state.altOfferedFor (itineraryIdFrom T) = some true →
      onPrimaryProduced w T out1 now1 = w) ∧
    (getKey w.state.altOfferedFor (itineraryIdFrom T) ≠ some true →
      countKey w.state.altOfferedFor (itineraryIdFrom T) ≤ 1 →
      getKey (onPrimaryProduced (onPrimaryProduced w T out1 now1) T out2
          now2).state.altOfferedFor (itineraryIdFrom T) = some false ∧
      countKey (onPrimaryProduced (onPrimaryProduced w T out1 now1) T out2
          now2).state.altOfferedFor (itineraryIdFrom T) = 1 ∧
      (onPrimaryProduced (onPrimaryProduced w T out1 now1) T out2 now2).queue =
        w.queue ++ [(15, Desc.altPayload (itineraryIdFrom T) none),
                    (15, Desc.altPayload (itineraryIdFrom T) none)]) := by
  constructor
  · exact fun h => onPrimary_offered w T out1 now1 h
  · intro hm hcount
    have h1 := onPrimary_schedules w T out1 now1 hT hc hm
    have hk1 : getKey (onPrimaryProduced w T out1 now1).state.altOfferedFor
        (itineraryIdFrom T) = some false := by
      rw [h1]; simpa using getKey_setKey_self _ _ false
    have hm2 : getKey (onPrimaryProduced w T out1 now1).state.altOfferedFor
        (itineraryIdFrom T) ≠ some true := by
      rw [hk1]; simp
    have h2 := onPrimary_schedules (onPrimaryProduced w T out1 now1) T out2 now2 hT hc hm2
    have hcount1 : countKey (onPrimaryProduced w T out1 now1).state.altOfferedFor
        (itineraryIdFrom T) = 1 := by
      rw [h1]
      cases hg : getKey w.state.altOfferedFor (itineraryIdFrom T) with
      | none =>
        have := countKey_setKey_of_none w.state.altOfferedFor (itineraryIdFrom T) false hg
        have h0 := getKey_none_countKey w.state.altOfferedFor (itineraryIdFrom T) hg
        simpa [h0] using this
      | some b =>
        have := countKey_setKey_of_some w.state.altOfferedFor (itineraryIdFrom T) false b hg
        have hge := getKey_some_countKey w.state.altOfferedFor (itineraryIdFrom T) b hg
        simp only [this]
        omega
    refine ⟨?_, ?_, ?_⟩
    · rw [h2]; simpa using getKey_setKey_self _ _ false
    · rw [h2]
      have := countKey_setKey_of_some
        (onPrimaryProduced w T out1 now1).state.altOfferedFor
        (itineraryIdFrom T) false false hk1
      simpa [this] using hcount1
    · rw [h2, h1]
      simp

/-- C1 (amended), witness at a fresh conversation and the accepted text
`"trip"`. -/
theorem C1_amended_scheduling_witness :
    getKey (onPrimaryProduced (onPrimaryProduced initWorld "trip" "plan" 0) "trip" "plan"
        1).state.altOfferedFor (itineraryIdFrom "trip") = some false ∧
    countKey (onPrimaryProduced (onPrimaryProduced initWorld "trip" "plan" 0) "trip" "plan"
        1).state.altOfferedFor (itineraryIdFrom "trip") = 1 ∧
    (onPrimaryProduced (onPrimaryProduced initWorld "trip" "plan" 0) "trip" "plan" 1).queue =
      initWorld.queue ++ [(15, Desc.altPayload (itineraryIdFrom "trip") none),
                          (15, Desc.altPayload (itineraryIdFrom "trip") none)] :=
  (C1_amended_scheduling initWorld "trip" "plan" "plan" 0 1 (by decide) (by decide)).2
    (by decide) (by decide)

/-- C2: at-most-once emission with write-before-emit ordering.  When a
deferred `altItinerary` invocation passes the guards and the generator
succeeds, exactly one follow-up message is appended, and in the recorded
effect trace the terminal `setState` (marker `true`) precedes the message
emission; afterwards the marker is `true`, and ANY further sequence of
deferred invocations for the same fingerprint leaves the world exactly
unchanged — no second message is ever appended.  (Invocations are
serialized by the hosting actor, §5 of the spec, so the sequential model
is the faithful one.) -/
theorem C2_at_most_once_emission (w : World) (F : String) (r : Option Nat)
    (g : Option String) (base : LastItin) (finalAlt : String)
    (invs : List (Option Nat × Option String))
    (hm : getKey w.state.altOfferedFor F ≠ some true)
    (hb : w.state.lastItinerary = some base) (hid : base.id = F)
    (hg : genOutcome g = some finalAlt) :
    (execAlt w F r g).messages =
      w.messages ++ [{ role := "assistant", text := altMsgText F finalAlt }] ∧
    (execAlt w F r g).events =
      w.events ++ [Event.genCall,
        Event.stateWrite (execAlt w F r g).state,
        Event.emitMsg { role := "assistant", text := altMsgText F finalAlt }] ∧
    getKey (execAlt w F r g).state.altOfferedFor F = some true ∧
    runAltF (execAlt w F r g) F invs = execAlt w F r g := by
  have he := execAlt_success_eq w F r g base finalAlt hm hb hid hg
  have hk : getKey (execAlt w F r g).state.altOfferedFor F = some true := by
    rw [he]; simpa using getKey_setKey_self _ F true
  refine ⟨by rw [he], by rw [he], hk, runAltF_of_offered _ F invs hk⟩

/-- C2, witness: a scheduled record for `"trip"`, a succeeding generator,
then two further duplicate invocations (one with a succeeding generator,
one with a failing one) — all exact no-ops. -/
theorem C2_at_most_once_emission_witness :
    (execAlt (onPrimaryProduced initWorld "trip" "plan" 0) (itineraryIdFrom "trip")
        none (some "ALT")).messages =
      (onPrimaryProduced initWorld "trip" "plan" 0).messages ++
        [{ role := "assistant", text := altMsgText (itineraryIdFrom "trip") "ALT" }] ∧
    (execAlt (onPrimaryProduced initWorld "trip" "plan" 0) (itineraryIdFrom "trip")
        none (some "ALT")).events =
      (onPrimaryProduced initWorld "trip" "plan" 0).events ++ [Event.genCall,
        Event.stateWrite (execAlt (onPrimaryProduced initWorld "trip" "plan" 0)
          (itineraryIdFrom "trip") none (some "ALT")).state,
        Event.emitMsg { role := "assistant", text := altMsgText (itineraryIdFrom "trip") "ALT" }] ∧
    getKey (execAlt (onPrimaryProduced initWorld "trip" "plan" 0) (itineraryIdFrom "trip")
        none (some "ALT")).state.altOfferedFor (itineraryIdFrom "trip") = some true ∧
    runAltF (execAlt (onPrimaryProduced initWorld "trip" "plan" 0) (itineraryIdFrom "trip")
        none (some "ALT")) (itineraryIdFrom "trip")
      [(some 1, some "other"), (none, none)] =
      execAlt (onPrimaryProduced initWorld "trip" "plan" 0) (itineraryIdFrom "trip")
        none (some "ALT") :=
  C2_at_most_once_emission (onPrimaryProduced initWorld "trip" "plan" 0)
    (itineraryIdFrom "trip") none (some "ALT")
    { id := itineraryIdFrom "trip", text := "plan", createdAt := 0 } "ALT"
    [(some 1, some "other"), (none, none)]
    (by decide) (by rfl) (by rfl) (by rfl)

/-- C3, counterexample.  The claim says that after the 2 failed attempts
the record "reaches status ABANDONED".  The code's failure path performs
no state write whatsoever: after scheduling for `"trip"` and two failed
attempts (initial + retry), the durable state is byte-for-byte the state
as of scheduling, and the record still carries the scheduled-stage marker
`false` — no abandoned status exists or is ever written. -/
theorem C3_counterexample :
    getKey (executeTask (executeTask (onPrimaryProduced initWorld "trip" "plan" 0)
        (Desc.altPayload (itineraryIdFrom "trip") none) none)
        (Desc.altPayload (itineraryIdFrom "trip") (some 1)) none).state.altOfferedFor
      (itineraryIdFrom "trip") = some false ∧
    (executeTask (executeTask (onPrimaryProduced initWorld "trip" "plan" 0)
        (Desc.altPayload (itineraryIdFrom "trip") none) none)
        (Desc.altPayload (itineraryIdFrom "trip") (some 1)) none).state =
      (onPrimaryProduced initWorld "trip" "plan" 0).state := by
  constructor
  · rfl
  · rfl

/-- C3 (amended): a generator that always fails causes exactly 2 total
attempts — the initial invocation calls the generator once and re-enqueues
exactly one retry with the shorter delay 10 carrying `retry = 1`, and the
retry invocation calls the generator once and enqueues nothing further —
after which no further scheduler invocations are produced.  The durable
record never changes on this path: its marker stays at the scheduled
value `false`; no ABANDONED status is written (abandonment is only
implicit in the absence of any remaining invocation). -/
theorem C3_bounded_retry (w : World) (F : String) (g1 g2 : Option String)
    (base : LastItin)
    (hF : F ≠ "")
    (hm : getKey w.state.altOfferedFor F ≠ some true)
    (hb : w.state.lastItinerary = some base) (hid : base.id = F)
    (hg1 : genOutcome g1 = none) (hg2 : genOutcome g2 = none) :
    (executeTask w (Desc.altPayload F none) g1).state = w.state ∧
    (executeTask w (Desc.altPayload F none) g1).messages = w.messages ∧
    (executeTask w (Desc.altPayload F none) g1).queue =
      w.queue ++ [(10, Desc.altPayload F (some 1))] ∧
    (executeTask w (Desc.altPayload F none) g1).events =
      w.events ++ [Event.genCall, Event.enqueue 10 (Desc.altPayload F (some 1))] ∧
    (executeTask (executeTask w (Desc.altPayload F none) g1)
        (Desc.altPayload F (some 1)) g2).state = w.state ∧
    (executeTask (executeTask w (Desc.altPayload F none) g1)
        (Desc.altPayload F (some 1)) g2).messages = w.messages ∧
    (executeTask (executeTask w (Desc.altPayload F none) g1)
        (Desc.altPayload F (some 1)) g2).queue =
      (executeTask w (Desc.altPayload F none) g1).queue ∧
    (executeTask (executeTask w (Desc.altPayload F none) g1)
        (Desc.altPayload F (some 1)) g2).events =
      (executeTask w (Desc.altPayload F none) g1).events ++ [Event.genCall] := by
  have h1 : executeTask w (Desc.altPayload F none) g1 =
      { w with queue := w.queue ++ [(10, Desc.altPayload F (some 1))],
               events := w.events ++
                 [Event.genCall, Event.enqueue 10 (Desc.altPayload F (some 1))] } := by
    rw [executeTask_alt w F none g1 hF]
    exact execAlt_failure_retry w F none g1 base hm hb hid hg1 (by simp)
  have h2 : executeTask (executeTask w (Desc.altPayload F none) g1)
      (Desc.altPayload F (some 1)) g2 =
      { executeTask w (Desc.altPayload F none) g1 with
        events := (executeTask w (Desc.altPayload F none) g1).events ++ [Event.genCall] } := by
    rw [executeTask_alt _ F (some 1) g2 hF]
    refine execAlt_failure_stop _ F (some 1) g2 base ?_ ?_ hid hg2 (by simp)
    · rw [h1]; exact hm
    · rw [h1]; exact hb
  refine ⟨by rw [h1], by rw [h1], by rw [h1], by rw [h1], ?_, ?_, ?_, ?_⟩
  · rw [h2, h1]
  · rw [h2, h1]
  · rw [h2]
  · rw [h2]

/-- C3 (amended), witness: the concrete always-failing run for `"trip"`
(first generator call throws, second returns an empty text). -/
theorem C3_bounded_retry_witness :
    (executeTask (onPrimaryProduced initWorld "trip" "plan" 0)
        (Desc.altPayload (itineraryIdFrom "trip") none) none).queue =
      (onPrimaryProduced initWorld "trip" "plan" 0).queue ++
        [(10, Desc.altPayload (itineraryIdFrom "trip") (some 1))] ∧
    (executeTask (executeTask (onPrimaryProduced initWorld "trip" "plan" 0)
        (Desc.altPayload (itineraryIdFrom "trip") none) none)
        (Desc.altPayload (itineraryIdFrom "trip") (some 1)) (some "")).queue =
      (executeTask (onPrimaryProduced initWorld "trip" "plan" 0)
        (Desc.altPayload (itineraryIdFrom "trip") none) none).queue ∧
    (executeTask (executeTask (onPrimaryProduced initWorld "trip" "plan" 0)
        (Desc.altPayload (itineraryIdFrom "trip") none) none)
        (Desc.altPayload (itineraryIdFrom "trip") (some 1)) (some "")).events =
      (executeTask (onPrimaryProduced initWorld "trip" "plan" 0)
        (Desc.altPayload (itineraryIdFrom "trip") none) none).events ++ [Event.genCall] := by
  have h := C3_bounded_retry (onPrimaryProduced initWorld "trip" "plan" 0)
    (itineraryIdFrom "trip") none (some "")
    { id := itineraryIdFrom "trip", text := "plan", createdAt := 0 }
    (by decide) (by decide) (by rfl) (by rfl) (by rfl) (by rfl)
  exact ⟨h.2.2.1, h.2.2.2.2.2.2.1, h.2.2.2.2.2.2.2⟩

/-- C4, counterexample.  The claim says a malformed payload leads to a
no-op with "no message appended".  The code's fallback is the starter's
default branch, which APPENDS a user-role message echoing the raw
description: for the unparsable description `"hello"`, one message
`Running scheduled task: hello` is appended to the conversation. -/
theorem C4_counterexample :
    (executeTask initWorld (Desc.malformed "hello") none).messages =
      [{ role := "user", text := "Running scheduled task: hello" }] := by
  rfl

/-- C4 (amended): on any payload that is not a well-formed `altItinerary`
payload with a non-empty id (malformed JSON, other JSON, or an alt payload
with an empty id), `executeTask` never raises and touches neither the
durable state nor the schedule queue, but it does NOT stay silent toward
the conversation: it appends exactly one user-role message
`Running scheduled task: <description>` (the starter's default
behaviour). -/
theorem C4_default_branch (w : World) (d : Desc) (g : Option String)
    (h : ∀ id r, d = Desc.altPayload id r → id = "") :
    executeTask w d g =
      { w with messages := w.messages ++ [defaultMsg d],
               events := w.events ++ [Event.emitMsg (defaultMsg d)] } :=
  executeTask_default w d g h

/-- C4 (amended), witness at the malformed description `"oops"`. -/
theorem C4_default_branch_witness :
    executeTask initWorld (Desc.malformed "oops") none =
      { initWorld with
        messages := initWorld.messages ++ [defaultMsg (Desc.malformed "oops")],
        events := initWorld.events ++ [Event.emitMsg (defaultMsg (Desc.malformed "oops"))] } :=
  C4_default_branch initWorld (Desc.malformed "oops") none
    (by intro i r he; cases he)

/-- C5, counterexample.  The claim says `scheduled → abandoned` is a
terminal transition and a terminal record is never re-processed.  After
the always-failing run for `"trip"` exhausts its retries (the spec's
ABANDONED point), a further duplicate deferred invocation with a now
succeeding generator fully re-processes the record: the generator runs
again, a follow-up message is appended, and the marker moves to
completed; a repeated `onPrimaryProduced` with the same text likewise
re-schedules (queue grows again).  The abandoned state is not terminal in
the code — it is not even representable. -/
theorem C5_counterexample :
    (executeTask (executeTask (executeTask (onPrimaryProduced initWorld "trip" "plan" 0)
        (Desc.altPayload (itineraryIdFrom "trip") none) none)
        (Desc.altPayload (itineraryIdFrom "trip") (some 1)) none)
        (Desc.altPayload (itineraryIdFrom "trip") none) (some "ALT")).messages.length =
      (executeTask (executeTask (onPrimaryProduced initWorld "trip" "plan" 0)
        (Desc.altPayload (itineraryIdFrom "trip") none) none)
        (Desc.altPayload (itineraryIdFrom "trip") (some 1)) none).messages.length + 1 ∧
    getKey (executeTask (executeTask (executeTask (onPrimaryProduced initWorld "trip" "plan" 0)
        (Desc.altPayload (itineraryIdFrom "trip") none) none)
        (Desc.altPayload (itineraryIdFrom "trip") (some 1)) none)
        (Desc.altPayload (itineraryIdFrom "trip") none) (some "ALT")).state.altOfferedFor
      (itineraryIdFrom "trip") = some true ∧
    (onPrimaryProduced (executeTask (executeTask (onPrimaryProduced initWorld "trip" "plan" 0)
        (Desc.altPayload (itineraryIdFrom "trip") none) none)
        (Desc.altPayload (itineraryIdFrom "trip") (some 1)) none)
        "trip" "plan again" 9).queue.length =
      (executeTask (executeTask (onPrimaryProduced initWorld "trip" "plan" 0)
        (Desc.altPayload (itineraryIdFrom "trip") none) none)
        (Desc.altPayload (itineraryIdFrom "trip") (some 1)) none).queue.length + 1 := by
  refine ⟨?_, ?_, ?_⟩ <;> rfl

/-- C5 (amended): the persisted marker only moves forward — from a stored
value it never becomes absent, and from `true` (completed) it stays
`true` under every operation; a completed record is terminal: both
`onPrimaryProduced` on its text and a deferred `altItinerary` invocation
on its fingerprint are exact no-ops.  Abandonment, however, is NOT a
persisted status: after retries are exhausted the record still carries
the scheduled marker `false` and remains re-processable. -/
theorem C5_forward_only (w : World) (op : Op) (F T out : String) (now : Nat)
    (r : Option Nat) (g : Option String) :
    (∀ b, getKey w.state.altOfferedFor F = some b →
      ∃ b', getKey (step w op).state.altOfferedFor F = some b' ∧
        (b = true → b' = true)) ∧
    (getKey w.state.altOfferedFor (itineraryIdFrom T) = some true →
      onPrimaryProduced w T out now = w) ∧
    (getKey w.state.altOfferedFor F = some true → execAlt w F r g = w) :=
  ⟨fun b hb => step_marker_forward w op F b hb,
   fun h => onPrimary_offered w T out now h,
   fun h => execAlt_offered w F r g h⟩

/-- C5 (amended), witness at a completed record for `"trip"`. -/
theorem C5_forward_only_witness :
    (∃ b', getKey (step (execAlt (onPrimaryProduced initWorld "trip" "plan" 0)
        (itineraryIdFrom "trip") none (some "ALT"))
        (Op.task (Desc.altPayload (itineraryIdFrom "trip") none) none)).state.altOfferedFor
        (itineraryIdFrom "trip") = some b' ∧ (true = true → b' = true)) ∧
    onPrimaryProduced (execAlt (onPrimaryProduced initWorld "trip" "plan" 0)
        (itineraryIdFrom "trip") none (some "ALT")) "trip" "plan" 3 =
      execAlt (onPrimaryProduced initWorld "trip" "plan" 0)
        (itineraryIdFrom "trip") none (some "ALT") ∧
    execAlt (execAlt (onPrimaryProduced initWorld "trip" "plan" 0)
        (itineraryIdFrom "trip") none (some "ALT"))
        (itineraryIdFrom "trip") none (some "other") =
      execAlt (onPrimaryProduced initWorld "trip" "plan" 0)
        (itineraryIdFrom "trip") none (some "ALT") :=
  ⟨(C5_forward_only (execAlt (onPrimaryProduced initWorld "trip" "plan" 0)
      (itineraryIdFrom "trip") none (some "ALT"))
      (Op.task (Desc.altPayload (itineraryIdFrom "trip") none) none)
      (itineraryIdFrom "trip") "trip" "plan" 3 none (some "other")).1 true (by rfl),
   (C5_forward_only (execAlt (onPrimaryProduced initWorld "trip" "plan" 0)
      (itineraryIdFrom "trip") none (some "ALT"))
      (Op.task (Desc.altPayload (itineraryIdFrom "trip") none) none)
      (itineraryIdFrom "trip") "trip" "plan" 3 none (some "other")).2.1 (by rfl),
   (C5_forward_only (execAlt (onPrimaryProduced initWorld "trip" "plan" 0)
      (itineraryIdFrom "trip") none (some "ALT"))
      (Op.task (Desc.altPayload (itineraryIdFrom "trip") none) none)
      (itineraryIdFrom "trip") "trip" "plan" 3 none (some "other")).2.2 (by rfl)⟩

/-- C6: defensive guard on a missing record or a missing/mismatched base.
For any deferred `altItinerary` invocation whose fingerprint has no
TaskRecord, or whose stored `lastItinerary` is absent or has a different
id, the invocation returns the world byte-for-byte unchanged: no state
write, no generator call, no message, no retry — the event trace itself
is untouched.  (`StateInv` is the reachable-state invariant, established
at the initial state and preserved by every operation, that links the
stored base to its marker; the no-record case needs it to rule out an
unreachable state with a matching base but no marker.) -/
theorem C6_guard_missing_base (w : World) (F : String) (r : Option Nat)
    (g : Option String)
    (hF : F ≠ "") (hinv : StateInv w.state)
    (h : getKey w.state.altOfferedFor F = none ∨
         w.state.lastItinerary = none ∨
         ∃ base, w.state.lastItinerary = some base ∧ base.id ≠ F) :
    executeTask w (Desc.altPayload F r) g = w := by
  rw [executeTask_alt w F r g hF]
  rcases h with h | h | ⟨base, hb, hne⟩
  · cases hb : w.state.lastItinerary with
    | none => exact execAlt_no_base w F r g hb
    | some base =>
      by_cases hid : base.id = F
      · have hz := hinv base hb
        rw [hid] at hz
        exact absurd h hz
      · exact execAlt_mismatch w F r g base hb hid
  · exact execAlt_no_base w F r g h
  · exact execAlt_mismatch w F r g base hb hne

/-- C6, witness: a fresh conversation, an arbitrary fingerprint — the
invocation is an exact no-op. -/
theorem C6_guard_missing_base_witness :
    executeTask initWorld (Desc.altPayload "itn-feed" none) (some "alt") = initWorld :=
  C6_guard_missing_base initWorld "itn-feed" none (some "alt") (by decide)
    stateInv_init (Or.inl rfl)

/-- C7 (modelled from the spec, the tool implementation being outside the
given sources): the preference upsert deep-merges the delta into the
stored preferences — a key absent from the delta keeps its exact prior
value (never deleted); a key present in both has its values deep-merged,
which recurses when both are objects and otherwise takes the incoming
value; a key only in the delta is added; and on the spec's concrete
example, `{a:1, b:2}` merged with `{b:3, c:4}` is `{a:1, b:3, c:4}`. -/
theorem C7_merge_preserves_untouched (P D : List (String × JVal)) (k : String) :
    (lookupJ D k = none → lookupJ (upsertPreferences P D) k = lookupJ P k) ∧
    (∀ v dv, lookupJ P k = some v → lookupJ D k = some dv →
      lookupJ (upsertPreferences P D) k = some (deepMergeVal v dv)) ∧
    (∀ dv, lookupJ P k = none → lookupJ D k = some dv →
      lookupJ (upsertPreferences P D) k = some dv) ∧
    (∀ po d2, deepMergeVal (JVal.obj po) (JVal.obj d2) =
      JVal.obj (upsertPreferences po d2)) ∧
    (∀ v dv, (∀ po, v = JVal.obj po → ∀ d2, dv ≠ JVal.obj d2) →
      deepMergeVal v dv = dv) ∧
    upsertPreferences [("a", JVal.num 1), ("b", JVal.num 2)]
        [("b", JVal.num 3), ("c", JVal.num 4)] =
      [("a", JVal.num 1), ("b", JVal.num 3), ("c", JVal.num 4)] := by
  refine ⟨?_, ?_, ?_, ?_, ?_, by rfl⟩
  · intro hd
    rw [lookupJ_upsert, hd]
    cases lookupJ P k <;> rfl
  · intro v dv hp hd
    rw [lookupJ_upsert, hp, hd]
  · intro dv hp hd
    rw [lookupJ_upsert, hp, hd]
  · intro po d2
    simp [deepMergeVal, upsertPreferences]
  · intro v dv hno
    cases v with
    | obj po =>
      cases dv with
      | obj d2 => exact absurd rfl (hno po rfl d2)
      | str s => rfl
      | num n => rfl
      | bool b => rfl
      | arr xs => rfl
      | null => rfl
    | str s => rfl
    | num n => rfl
    | bool b => rfl
    | arr xs => rfl
    | null => rfl

/-- C7, witness on the spec's example: the untouched key `a` keeps its
value, the delta-only key `c` is added. -/
theorem C7_merge_preserves_untouched_witness :
    lookupJ (upsertPreferences [("a", JVal.num 1), ("b", JVal.num 2)]
        [("b", JVal.num 3), ("c", JVal.num 4)]) "a" =
      lookupJ [("a", JVal.num 1), ("b", JVal.num 2)] "a" ∧
    lookupJ (upsertPreferences [("a", JVal.num 1), ("b", JVal.num 2)]
        [("b", JVal.num 3), ("c", JVal.num 4)]) "c" = some (JVal.num 4) :=
  ⟨(C7_merge_preserves_untouched [("a", JVal.num 1), ("b", JVal.num 2)]
      [("b", JVal.num 3), ("c", JVal.num 4)] "a").1 rfl,
   (C7_merge_preserves_untouched [("a", JVal.num 1), ("b", JVal.num 2)]
      [("b", JVal.num 3), ("c", JVal.num 4)] "c").2.2.1 (JVal.num 4) rfl rfl⟩

/-- C8: the fingerprint is a pure, deterministic function of the text.
In the embedding `itineraryIdFrom` takes nothing but the text — no
ambient state, seed or randomness occurs in its definition, so its value
is fixed across evaluations and runs — and equal texts always yield equal
fingerprints. -/
theorem C8_fingerprint_deterministic (t1 t2 : String) (h : t1 = t2) :
    itineraryIdFrom t1 = itineraryIdFrom t2 := by
  rw [h]

/-- C8, witness on the reference text. -/
theorem C8_fingerprint_deterministic_witness :
    itineraryIdFrom "Create me a 3 day trip in Tokyo" =
      itineraryIdFrom "Create me a 3 day trip in Tokyo" :=
  C8_fingerprint_deterministic "Create me a 3 day trip in Tokyo"
    "Create me a 3 day trip in Tokyo" rfl

/-- C9: the reference scenario.  For the input text
`"Create me a 3 day trip in Tokyo"` the classifier returns true, and
`onPrimaryProduced` on a fresh conversation stores the record with the
scheduled marker (`false`) for the computed fingerprint, caches the
primary output as the base (`lastItinerary`), and enqueues exactly one
deferred invocation with delay 15 carrying the fingerprint — with no
message emitted by this step. -/
theorem C9_scenario :
    looksLikeItineraryRequest "Create me a 3 day trip in Tokyo" = true ∧
    (onPrimaryProduced initWorld "Create me a 3 day trip in Tokyo"
        "PRIMARY" 7).state.altOfferedFor =
      [(itineraryIdFrom "Create me a 3 day trip in Tokyo", false)] ∧
    (onPrimaryProduced initWorld "Create me a 3 day trip in Tokyo"
        "PRIMARY" 7).state.lastItinerary =
      some { id := itineraryIdFrom "Create me a 3 day trip in Tokyo",
             text := "PRIMARY", createdAt := 7 } ∧
    (onPrimaryProduced initWorld "Create me a 3 day trip in Tokyo" "PRIMARY" 7).queue =
      [(15, Desc.altPayload (itineraryIdFrom "Create me a 3 day trip in Tokyo") none)] ∧
    (onPrimaryProduced initWorld "Create me a 3 day trip in Tokyo" "PRIMARY" 7).messages =
      [] := by
  refine ⟨by decide, ?_, ?_, ?_, ?_⟩ <;> rfl

/-- C10: the failure path writes nothing.  When a deferred `altItinerary`
invocation passes the guards and the generator fails — it throws
(`g = none`), or returns text whose trim is empty (empty or
whitespace-only), both captured by `genOutcome g = none` — the durable
state is returned exactly as loaded (so `profile`, `lastItinerary` and
`altOfferedFor` are all untouched) and no message is appended; the only
effect beyond the generator call itself is at most one re-enqueued retry
invocation (present exactly when the payload carried no prior retry). -/
theorem C10_failure_no_state_write (w : World) (F : String) (r : Option Nat)
    (g : Option String) (base : LastItin)
    (hm : getKey w.state.altOfferedFor F ≠ some true)
    (hb : w.state.lastItinerary = some base) (hid : base.id = F)
    (hg : genOutcome g = none) :
    (execAlt w F r g).state = w.state ∧
    (execAlt w F r g).messages = w.messages ∧
    ((r.getD 0 = 0 ∧
        (execAlt w F r g).queue = w.queue ++ [(10, Desc.altPayload F (some 1))] ∧
        (execAlt w F r g).events =
          w.events ++ [Event.genCall, Event.enqueue 10 (Desc.altPayload F (some 1))]) ∨
     (1 ≤ r.getD 0 ∧
        (execAlt w F r g).queue = w.queue ∧
        (execAlt w F r g).events = w.events ++ [Event.genCall])) := by
  by_cases hr : r.getD 0 + 1 ≤ 1
  · have hz : r.getD 0 = 0 := by omega
    have he := execAlt_failure_retry w F r g base hm hb hid hg hr
    rw [hz] at he
    exact ⟨by rw [he], by rw [he], Or.inl ⟨hz, by rw [he], by rw [he]⟩⟩
  · have hz : 1 ≤ r.getD 0 := by omega
    have he := execAlt_failure_stop w F r g base hm hb hid hg hr
    exact ⟨by rw [he], by rw [he], Or.inr ⟨hz, by rw [he], by rw [he]⟩⟩

/-- C10, witness: a whitespace-only generator result on the scheduled
record for `"trip"` — state and messages exactly as loaded, one retry
enqueued. -/
theorem C10_failure_no_state_write_witness :
    (execAlt (onPrimaryProduced initWorld "trip" "plan" 0) (itineraryIdFrom "trip")
        none (some "   ")).state = (onPrimaryProduced initWorld "trip" "plan" 0).state ∧
    (execAlt (onPrimaryProduced initWorld "trip" "plan" 0) (itineraryIdFrom "trip")
        none (some "   ")).messages =
      (onPrimaryProduced initWorld "trip" "plan" 0).messages ∧
    (((none : Option Nat).getD 0 = 0 ∧
        (execAlt (onPrimaryProduced initWorld "trip" "plan" 0) (itineraryIdFrom "trip")
            none (some "   ")).queue =
          (onPrimaryProduced initWorld "trip" "plan" 0).queue ++
            [(10, Desc.altPayload (itineraryIdFrom "trip") (some 1))] ∧
        (execAlt (onPrimaryProduced initWorld "trip" "plan" 0) (itineraryIdFrom "trip")
            none (some "   ")).events =
          (onPrimaryProduced initWorld "trip" "plan" 0).events ++
            [Event.genCall, Event.enqueue 10 (Desc.altPayload (itineraryIdFrom "trip") (some 1))]) ∨
     (1 ≤ (none : Option Nat).getD 0 ∧
        (execAlt (onPrimaryProduced initWorld "trip" "plan" 0) (itineraryIdFrom "trip")
            none (some "   ")).queue = (onPrimaryProduced initWorld "trip" "plan" 0).queue ∧
        (execAlt (onPrimaryProduced initWorld "trip" "plan" 0) (itineraryIdFrom "trip")
            none (some "   ")).events =
          (onPrimaryProduced initWorld "trip" "plan" 0).events ++ [Event.genCall])) :=
  C10_failure_no_state_write (onPrimaryProduced initWorld "trip" "plan" 0)
    (itineraryIdFrom "trip") none (some "   ")
    { id := itineraryIdFrom "trip", text := "plan", createdAt := 0 }
    (by decide) (by rfl) (by rfl) (by rfl)

end TravelHelper
